import Mathlib

/-!
Verification of the realtime fan-out and reaction-aggregation core of the
anonboard repository (an anonymous confession board).  The definitions below
are a shallow embedding of `src/app/page.tsx` and
`src/components/ConfessionBoard.tsx`: React state updates become pure
functions on an explicit client-state, Supabase store and broadcast calls
become explicit inputs/outputs of those functions, and timestamps are
modelled as naturals (only their order matters).
-/

/-- A row of the `confessions` table / the client's `Confession` interface:
`id`, `content`, `created_at`, and an optional `likes` counter
(`likes?: number` in the source, hence `Option Nat`). `created_at` is the
store-assigned creation time, modelled as a natural number. -/
structure Confession where
  id : String
  content : String
  created_at : Nat
  likes : Option Nat
  deriving DecidableEq, Repr

/-- The INSERT handler of the change-notification channel
(`ConfessionBoard.tsx` line 51): `setConfessions((prev) => [confession, ...prev])`.
It prepends the incoming row to the feed unconditionally. -/
def applyInsert (confession : Confession) (prev : List Confession) : List Confession :=
  confession :: prev

/-- The UPDATE handler of the change-notification channel
(`ConfessionBoard.tsx` line 59):
`prev.map((c) => (c.id === updated.id ? \x7b ...c, likes: updated.likes \x7d : c))`. -/
def applyUpdate (updated : Confession) (prev : List Confession) : List Confession :=
  prev.map (fun c => if c.id = updated.id then { c with likes := updated.likes } else c)

/-- The broadcast "like" handler (`ConfessionBoard.tsx` line 72):
`prev.map((c) => (c.id === id ? \x7b ...c, likes \x7d : c))`; the payload's
`likes` field is a plain number, so the entry's optional counter becomes
`some likes`. -/
def applyBroadcastLike (id : String) (likes : Nat) (prev : List Confession) :
    List Confession :=
  prev.map (fun c => if c.id = id then { c with likes := some likes } else c)

/-- Look up the feed entry with the given id (the entry rendered for that id). -/
def findById (feed : List Confession) (P : String) : Option Confession :=
  feed.find? (fun c => c.id = P)

/-- The displayed likes state for a post id: `none` when no entry with that id
is in the feed, otherwise the entry's `likes` field. -/
def likesOf (feed : List Confession) (P : String) : Option (Option Nat) :=
  (findById feed P).map (fun c => c.likes)

/-- Count how many feed entries carry a given id. -/
def countId (feed : List Confession) (P : String) : Nat :=
  (feed.filter (fun c => c.id = P)).length

/-- A concrete post used to exercise duplicate INSERT delivery. -/
def paDup : Confession := { id := "a", content := "x", created_at := 0, likes := some 0 }

/-- C1: the claim requires the INSERT handler to merge by id, so that a
duplicate INSERT for an id already present leaves the feed duplicate-free.
The handler instead prepends blindly: delivering the same INSERT for id "a"
twice to an empty feed displays two entries with id "a". -/
theorem C1_duplicate_insert_is_appended_not_merged :
    applyInsert paDup (applyInsert paDup []) = [paDup, paDup] ∧
    countId (applyInsert paDup (applyInsert paDup [])) "a" = 2 := by
  constructor
  · rfl
  · decide

/-- Helper: mapping a function that preserves ids commutes with `findById`. -/
theorem findById_map_of_id_eq (f : Confession → Confession)
    (hf : ∀ c, (f c).id = c.id) (feed : List Confession) (P : String) :
    findById (feed.map f) P = (findById feed P).map f := by
  induction feed with
  | nil => rfl
  | cons c feed ih =>
    by_cases h : c.id = P
    · simp [findById, List.find?, hf, h]
    · simpa [findById, List.find?, hf, h] using ih

/-- Helper: a found entry carries the id it was looked up by. -/
theorem findById_id {feed : List Confession} {P : String} {c : Confession}
    (h : findById feed P = some c) : c.id = P := by
  have := List.find?_some h
  simpa using this

/-- C4: the broadcast "like" handler has replacement semantics.  Applying it
twice with the same `(postId, newCount)` payload equals applying it once, and
after one application the entry displayed for `postId` is the old entry with
its likes replaced wholesale by the payload count (never incremented). -/
theorem C4_broadcast_like_replacement_idempotent (feed : List Confession)
    (i : String) (v : Nat) :
    applyBroadcastLike i v (applyBroadcastLike i v feed) = applyBroadcastLike i v feed ∧
    findById (applyBroadcastLike i v feed) i =
      (findById feed i).map (fun c => { c with likes := some v }) := by
  constructor
  · induction feed with
    | nil => rfl
    | cons c feed ih =>
      by_cases h : c.id = i
      · simpa [applyBroadcastLike, h] using ih
      · simpa [applyBroadcastLike, h] using ih
  · have h := findById_map_of_id_eq
      (fun c => if c.id = i then { c with likes := some v } else c)
      (by intro c; by_cases h : c.id = i <;> simp [h]) feed i
    rw [applyBroadcastLike, h]
    cases hf : findById feed i with
    | none => rfl
    | some c => simp [findById_id hf]

/-- The client's reaction aggregation state
`Record<string, Record<string, number>>`, modelled extensionally by its
displayed lookup: the view reads `reactions[c.id]?.[emo] ?? 0`, so a missing
post record and a missing emoji key both display 0. -/
def Reactions : Type := String → String → Nat

/-- The record update
`\x7b ...prev, [id]: \x7b ...(prev[id] || \x7b\x7d), [emoji]: count \x7d \x7d`
shared by `handleReact` and the broadcast "reaction" handler: the count at
`(id, emoji)` becomes `count`, every other key is unchanged. -/
def setReaction (prev : Reactions) (id emoji : String) (count : Nat) : Reactions :=
  fun i e => if i = id then (if e = emoji then count else prev i e) else prev i e

/-- The broadcast "reaction" handler (`ConfessionBoard.tsx` lines 64-69):
the receiver replaces its displayed count for `(payload.id, payload.emoji)`
with `payload.count` unconditionally. -/
def applyBroadcastReaction (prev : Reactions) (id emoji : String) (count : Nat) :
    Reactions :=
  setReaction prev id emoji count

/-- The result of one `handleReact` click: the updated local aggregation
state and the `\x7b id, emoji, count \x7d` payload sent on the broadcast
channel. -/
structure ReactResult where
  reactions : Reactions
  payload : String × String × Nat

/-- `handleReact` (`ConfessionBoard.tsx` lines 100-119): reads the current
displayed count for `(id, emoji)` from local state (`entry[emoji] ?? 0`),
increments by one, broadcasts the new count and stores it locally. -/
def handleReact (prev : Reactions) (id emoji : String) : ReactResult :=
  let currentCount := prev id emoji
  let newCount := currentCount + 1
  { reactions := setReaction prev id emoji newCount
    payload := (id, emoji, newCount) }

/-- `n` successive reaction clicks by the initiating viewer on the same
`(post, emoji)` with no interleaved remote events. -/
def clicksN : Nat → Reactions → String → String → Reactions
  | 0, r, _, _ => r
  | n + 1, r, id, emoji => clicksN n (handleReact r id emoji).reactions id emoji

/-- Helper: one click increments the displayed count at its own key by one. -/
theorem handleReact_self (r : Reactions) (id emoji : String) :
    (handleReact r id emoji).reactions id emoji = r id emoji + 1 := by
  simp [handleReact, setReaction]

/-- C5: each reaction click increments the initiator's displayed count for
`(post, emoji)` by exactly one and broadcasts that new count; `n` clicks add
`n` (no idempotency gate); a receiver replaces its count with the broadcast
value unconditionally; and self-delivery of the sender's own broadcast leaves
the sender's state unchanged. -/
theorem C5_reaction_protocol (r r2 : Reactions) (id emoji : String) (n cnt : Nat) :
    (handleReact r id emoji).reactions id emoji = r id emoji + 1 ∧
    (handleReact r id emoji).payload = (id, emoji, r id emoji + 1) ∧
    clicksN n r id emoji id emoji = r id emoji + n ∧
    applyBroadcastReaction r2 id emoji cnt id emoji = cnt ∧
    applyBroadcastReaction (handleReact r id emoji).reactions id emoji
        (handleReact r id emoji).payload.2.2 =
      (handleReact r id emoji).reactions := by
  refine ⟨handleReact_self r id emoji, rfl, ?_, by simp [applyBroadcastReaction, setReaction], ?_⟩
  · induction n generalizing r with
    | zero => rfl
    | succ n ih =>
      rw [clicksN, ih, handleReact_self]
      omega
  · funext i e
    by_cases hi : i = id <;> by_cases he : e = emoji <;>
      simp [applyBroadcastReaction, setReaction, handleReact, hi, he]

/-- Add an id to the liked-set, mirroring
`const next = new Set(prev); next.add(id)`: membership-based, no duplicate. -/
def addLiked (id : String) (prev : List String) : List String :=
  if id ∈ prev then prev else id :: prev

/-- The per-viewer client state of `ConfessionBoard`: the feed
(`confessions`), the reaction aggregation state (`reactions`), the local
liked-set (`likedIds`), and the persisted localStorage copy of the liked-set
under key `likedConfessions` (`storage`). -/
structure ClientState where
  confessions : List Confession
  reactions : Reactions
  likedIds : List String
  storage : List String

/-- The observable outcome of one `handleLike` call: the resulting client
state, whether a fresh store read of the row's likes was issued, the value
written back to the store by the update call (if one was issued), and the
broadcast "like" payload sent on success. -/
structure LikeResult where
  state : ClientState
  storeRead : Bool
  storeWrite : Option Nat
  likeBroadcastSent : Option (String × Nat)

/-- `handleLike` (`ConfessionBoard.tsx` lines 121-167).  `store` gives, per
id, the row's current likes column (`none` = no row; `some none` = row with
null likes); `writeOk` tells whether the store update succeeds.  Gate: if the
id is in the local liked-set, return immediately.  Otherwise read the current
likes fresh from the store, compute `newLikes = (currentData.likes || 0) + 1`
and write it back; on error return with no state change; on success update
the feed entry, broadcast the new count, and add the id to the liked-set and
its localStorage copy. -/
def handleLike (store : String → Option (Option Nat)) (writeOk : Bool)
    (st : ClientState) (id : String) : LikeResult :=
  if id ∈ st.likedIds then
    { state := st, storeRead := false, storeWrite := none, likeBroadcastSent := none }
  else
    match store id with
    | none =>
      { state := st, storeRead := true, storeWrite := none, likeBroadcastSent := none }
    | some currentLikes =>
      let newLikes := currentLikes.getD 0 + 1
      if writeOk then
        { state :=
            { st with
              confessions := st.confessions.map
                (fun c => if c.id = id then { c with likes := some newLikes } else c)
              likedIds := addLiked id st.likedIds
              storage := addLiked id st.likedIds }
          storeRead := true
          storeWrite := some newLikes
          likeBroadcastSent := some (id, newLikes) }
      else
        { state := st, storeRead := true, storeWrite := some newLikes,
          likeBroadcastSent := none }

/-- C2: a like on a post not in the local liked-set reads the row's current
likes fresh from the store and writes back exactly that count plus one; the
written value does not depend on the client's cached feed (replacing the
cached feed by any other feed yields the same write). -/
theorem C2_like_writes_fresh_store_count_plus_one
    (store : String → Option (Option Nat)) (writeOk : Bool) (st : ClientState)
    (id : String) (currentLikes : Option Nat)
    (hGate : id ∉ st.likedIds) (hRow : store id = some currentLikes) :
    (handleLike store writeOk st id).storeRead = true ∧
    (handleLike store writeOk st id).storeWrite = some (currentLikes.getD 0 + 1) ∧
    ∀ feed2 : List Confession,
      (handleLike store writeOk { st with confessions := feed2 } id).storeWrite =
        some (currentLikes.getD 0 + 1) := by
  refine ⟨?_, ?_, fun feed2 => ?_⟩ <;>
    · rw [handleLike]
      simp only [hGate, if_false, hRow]
      cases writeOk <;> rfl

/-- C3: when the store write of a like fails, the client state is exactly the
pre-attempt state: the displayed feed (hence the displayed count) is
unchanged, the liked-set and its localStorage copy are not mutated, no
broadcast is sent, and the id is still outside the liked-set, so a later like
gesture on the same post is not gated. -/
theorem C3_like_write_failure_is_atomic
    (store : String → Option (Option Nat)) (st : ClientState) (id : String)
    (currentLikes : Option Nat)
    (hGate : id ∉ st.likedIds) (hRow : store id = some currentLikes) :
    (handleLike store false st id).state = st ∧
    (handleLike store false st id).likeBroadcastSent = none ∧
    id ∉ (handleLike store false st id).state.likedIds := by
  rw [handleLike]
  simp only [hGate, if_false, hRow]
  exact ⟨rfl, rfl, hGate⟩

/-- The result `handleLike` returns when the gate fires: the state is
untouched and no store read, store write or broadcast is issued. -/
def likeNoop (st : ClientState) : LikeResult :=
  { state := st, storeRead := false, storeWrite := none, likeBroadcastSent := none }

/-- C6: a like gesture on a post already in the local liked-set is a no-op
(no store read, no store write, no broadcast, state unchanged); and after a
first successful like, a second gesture on the same post is that no-op, so
only the first gesture has effect. -/
theorem C6_like_gesture_gated
    (store store2 : String → Option (Option Nat)) (writeOk writeOk2 : Bool)
    (st : ClientState) (id : String) (currentLikes : Option Nat) :
    (id ∈ st.likedIds → handleLike store writeOk st id = likeNoop st) ∧
    (id ∉ st.likedIds → store id = some currentLikes →
      handleLike store2 writeOk2 (handleLike store true st id).state id =
        likeNoop (handleLike store true st id).state) := by
  constructor
  · intro hMem
    rw [handleLike]
    simp only [hMem, if_true]
    rfl
  · intro hGate hRow
    have hMem : id ∈ (handleLike store true st id).state.likedIds := by
      rw [handleLike]
      simp only [hGate, if_false, hRow]
      simp [addLiked, hGate]
    rw [handleLike]
    simp only [hMem, if_true]
    rfl

/-- The count-carrying realtime events a connected client processes for
existing posts: a store UPDATE row (change-notification channel), a broadcast
"like" payload, and a broadcast "reaction" payload. -/
inductive RealtimeEvent where
  | storeUpdate (row : Confession)
  | likeBroadcast (id : String) (likes : Nat)
  | reactionBroadcast (id : String) (emoji : String) (count : Nat)

/-- Dispatch one realtime event to the handler the component registers for
it (`ConfessionBoard.tsx` lines 54-73). -/
def applyEvent (st : ClientState) : RealtimeEvent → ClientState
  | .storeUpdate row => { st with confessions := applyUpdate row st.confessions }
  | .likeBroadcast i v => { st with confessions := applyBroadcastLike i v st.confessions }
  | .reactionBroadcast i e c =>
      { st with reactions := applyBroadcastReaction st.reactions i e c }

/-- Process a sequence of realtime events in arrival order at this client. -/
def processEvents (st : ClientState) : List RealtimeEvent → ClientState
  | [] => st
  | e :: es => processEvents (applyEvent st e) es

/-- The likes payload one event carries for post `P`, if the event targets
the likes of `P` (a store UPDATE whose row id is `P`, or a broadcast "like"
for `P`). -/
def headLikePayload (P : String) : RealtimeEvent → Option (Option Nat)
  | .storeUpdate row => if row.id = P then some row.likes else none
  | .likeBroadcast i v => if i = P then some (some v) else none
  | .reactionBroadcast _ _ _ => none

/-- The reaction count one event carries for `(P, E)`, if the event is a
broadcast "reaction" for that key. -/
def headReactionPayload (P E : String) : RealtimeEvent → Option Nat
  | .storeUpdate _ => none
  | .likeBroadcast _ _ => none
  | .reactionBroadcast i em c => if i = P ∧ em = E then some c else none

/-- The likes payload of the most recent event in the list that targets the
likes of post `P`; `none` when no such event occurs. -/
def lastLikePayload (P : String) : List RealtimeEvent → Option (Option Nat)
  | [] => none
  | e :: es =>
    match lastLikePayload P es with
    | some v => some v
    | none => headLikePayload P e

/-- The count payload of the most recent broadcast "reaction" event in the
list targeting `(P, E)`; `none` when no such event occurs. -/
def lastReactionPayload (P E : String) : List RealtimeEvent → Option Nat
  | [] => none
  | e :: es =>
    match lastReactionPayload P E es with
    | some v => some v
    | none => headReactionPayload P E e

/-- Helper: unfold `lastLikePayload` on a cons cell. -/
theorem lastLikePayload_cons (P : String) (e : RealtimeEvent) (es : List RealtimeEvent) :
    lastLikePayload P (e :: es) =
      match lastLikePayload P es with
      | some v => some v
      | none => headLikePayload P e := rfl

/-- Helper: unfold `lastReactionPayload` on a cons cell. -/
theorem lastReactionPayload_cons (P E : String) (e : RealtimeEvent)
    (es : List RealtimeEvent) :
    lastReactionPayload P E (e :: es) =
      match lastReactionPayload P E es with
      | some v => some v
      | none => headReactionPayload P E e := rfl

/-- Helper: displayed likes after a map whose function preserves ids. -/
theorem likesOf_map_of_id_eq (f : Confession → Confession)
    (hf : ∀ c, (f c).id = c.id) (feed : List Confession) (P : String) :
    likesOf (feed.map f) P = (findById feed P).map (fun c => (f c).likes) := by
  rw [likesOf, findById_map_of_id_eq f hf, Option.map_map]
  rfl

/-- Helper: events preserve whether the feed has an entry for `P`. -/
theorem applyEvent_findById_isSome (st : ClientState) (e : RealtimeEvent) (P : String) :
    (findById (applyEvent st e).confessions P).isSome =
      (findById st.confessions P).isSome := by
  cases e with
  | storeUpdate row =>
    show (findById (st.confessions.map _) P).isSome = _
    rw [findById_map_of_id_eq _ (by intro c; by_cases h : c.id = row.id <;> simp [h])]
    simp
  | likeBroadcast i v =>
    show (findById (st.confessions.map _) P).isSome = _
    rw [findById_map_of_id_eq _ (by intro c; by_cases h : c.id = i <;> simp [h])]
    simp
  | reactionBroadcast i em c => rfl

/-- Helper: an event that does not target the likes of `P` leaves the
displayed likes for `P` unchanged. -/
theorem applyEvent_likesOf_untagged (st : ClientState) (e : RealtimeEvent) (P : String)
    (h : headLikePayload P e = none) :
    likesOf (applyEvent st e).confessions P = likesOf st.confessions P := by
  cases e with
  | storeUpdate row =>
    by_cases hP : row.id = P
    · simp [headLikePayload, hP] at h
    · show likesOf (st.confessions.map _) P = _
      rw [likesOf_map_of_id_eq _ (by intro c; by_cases hc : c.id = row.id <;> simp [hc])]
      rw [likesOf]
      cases hf : findById st.confessions P with
      | none => rfl
      | some c =>
        have hcne : c.id ≠ row.id := by
          rw [findById_id hf]
          exact fun hEq => hP hEq.symm
        simp [hcne]
  | likeBroadcast i v =>
    by_cases hP : i = P
    · simp [headLikePayload, hP] at h
    · show likesOf (st.confessions.map _) P = _
      rw [likesOf_map_of_id_eq _ (by intro c; by_cases hc : c.id = i <;> simp [hc])]
      rw [likesOf]
      cases hf : findById st.confessions P with
      | none => rfl
      | some c =>
        have hcne : c.id ≠ i := by
          rw [findById_id hf]
          exact fun hEq => hP hEq.symm
        simp [hcne]
  | reactionBroadcast i em cnt => rfl

/-- Helper: an event that targets the likes of `P` with payload `v` makes
the displayed likes for `P` equal `v`, provided the feed has an entry. -/
theorem applyEvent_likesOf_tagged (st : ClientState) (e : RealtimeEvent) (P : String)
    (v : Option Nat) (h : headLikePayload P e = some v)
    (hIn : (findById st.confessions P).isSome = true) :
    likesOf (applyEvent st e).confessions P = some v := by
  obtain ⟨c, hc⟩ := Option.isSome_iff_exists.mp hIn
  have hcP : c.id = P := findById_id hc
  cases e with
  | storeUpdate row =>
    by_cases hP : row.id = P
    · have hv : row.likes = v := by simpa [headLikePayload, hP] using h
      show likesOf (st.confessions.map _) P = some v
      rw [likesOf_map_of_id_eq _
        (by intro c0; by_cases h0 : c0.id = row.id <;> simp [h0]), hc]
      have : c.id = row.id := by rw [hcP, hP]
      simp [this, hv]
    · simp [headLikePayload, hP] at h
  | likeBroadcast i w =>
    by_cases hP : i = P
    · have hv : some w = v := by simpa [headLikePayload, hP] using h
      show likesOf (st.confessions.map _) P = some v
      rw [likesOf_map_of_id_eq _
        (by intro c0; by_cases h0 : c0.id = i <;> simp [h0]), hc]
      have : c.id = i := by rw [hcP, hP]
      simp [this, hv]
    · simp [headLikePayload, hP] at h
  | reactionBroadcast i em cnt => simp [headLikePayload] at h

/-- Helper: with no likes-targeting event for `P` in the list, processing the
list leaves the displayed likes for `P` unchanged. -/
theorem processEvents_likesOf_untagged (es : List RealtimeEvent) (st : ClientState)
    (P : String) (h : lastLikePayload P es = none) :
    likesOf (processEvents st es).confessions P = likesOf st.confessions P := by
  induction es generalizing st with
  | nil => rfl
  | cons e es ih =>
    rw [lastLikePayload_cons] at h
    cases hRest : lastLikePayload P es with
    | some v => rw [hRest] at h; exact absurd h (by simp)
    | none =>
      rw [hRest] at h
      calc likesOf (processEvents (applyEvent st e) es).confessions P
          = likesOf (applyEvent st e).confessions P := ih _ hRest
        _ = likesOf st.confessions P := applyEvent_likesOf_untagged st e P h

/-- Helper: the displayed likes for `P` after processing a list whose most
recent likes-targeting event for `P` carries payload `v` equal `v`, provided
the feed has an entry for `P`. -/
theorem processEvents_likesOf_last (es : List RealtimeEvent) (st : ClientState)
    (P : String) (v : Option Nat) (hLast : lastLikePayload P es = some v)
    (hIn : (findById st.confessions P).isSome = true) :
    likesOf (processEvents st es).confessions P = some v := by
  induction es generalizing st with
  | nil => exact absurd hLast (by simp [lastLikePayload])
  | cons e es ih =>
    rw [lastLikePayload_cons] at hLast
    cases hRest : lastLikePayload P es with
    | some v0 =>
      rw [hRest] at hLast
      have hv : v0 = v := by simpa using hLast
      subst hv
      exact ih (applyEvent st e) hRest (by rw [applyEvent_findById_isSome]; exact hIn)
    | none =>
      rw [hRest] at hLast
      rw [processEvents, processEvents_likesOf_untagged es _ P hRest]
      exact applyEvent_likesOf_tagged st e P v hLast hIn

/-- Helper: an event that is not a reaction for `(P, E)` leaves the displayed
reaction count at `(P, E)` unchanged. -/
theorem applyEvent_reaction_untagged (st : ClientState) (e : RealtimeEvent)
    (P E : String) (h : headReactionPayload P E e = none) :
    (applyEvent st e).reactions P E = st.reactions P E := by
  cases e with
  | storeUpdate row => rfl
  | likeBroadcast i v => rfl
  | reactionBroadcast i em cnt =>
    by_cases hPE : i = P ∧ em = E
    · simp [headReactionPayload, hPE.1, hPE.2] at h
    · show applyBroadcastReaction st.reactions i em cnt P E = st.reactions P E
      by_cases hi : i = P
      · have he : em ≠ E := fun hEq => hPE ⟨hi, hEq⟩
        have he2 : E ≠ em := fun hEq => he hEq.symm
        simp [applyBroadcastReaction, setReaction, he2]
      · have hi2 : P ≠ i := fun hEq => hi hEq.symm
        simp [applyBroadcastReaction, setReaction, hi2]

/-- Helper: with no reaction event for `(P, E)` in the list, processing the
list leaves the displayed reaction count at `(P, E)` unchanged. -/
theorem processEvents_reaction_untagged (es : List RealtimeEvent) (st : ClientState)
    (P E : String) (h : lastReactionPayload P E es = none) :
    (processEvents st es).reactions P E = st.reactions P E := by
  induction es generalizing st with
  | nil => rfl
  | cons e es ih =>
    rw [lastReactionPayload_cons] at h
    cases hRest : lastReactionPayload P E es with
    | some v => rw [hRest] at h; exact absurd h (by simp)
    | none =>
      rw [hRest] at h
      rw [processEvents, ih _ hRest]
      exact applyEvent_reaction_untagged st e P E h

/-- Helper: the displayed reaction count at `(P, E)` after processing a list
whose most recent reaction event for `(P, E)` carries count `v` equals `v`. -/
theorem processEvents_reaction_last (es : List RealtimeEvent) (st : ClientState)
    (P E : String) (v : Nat) (hLast : lastReactionPayload P E es = some v) :
    (processEvents st es).reactions P E = v := by
  induction es generalizing st with
  | nil => exact absurd hLast (by simp [lastReactionPayload])
  | cons e es ih =>
    rw [lastReactionPayload_cons] at hLast
    cases hRest : lastReactionPayload P E es with
    | some v0 =>
      rw [hRest] at hLast
      have hv : v0 = v := by simpa using hLast
      subst hv
      exact ih (applyEvent st e) hRest
    | none =>
      rw [hRest] at hLast
      rw [processEvents, processEvents_reaction_untagged es _ P E hRest]
      cases e with
      | storeUpdate row => simp [headReactionPayload] at hLast
      | likeBroadcast i w => simp [headReactionPayload] at hLast
      | reactionBroadcast i em cnt =>
        by_cases hPE : i = P ∧ em = E
        · have hv : cnt = v := by simpa [headReactionPayload, hPE.1, hPE.2] using hLast
          show applyBroadcastReaction st.reactions i em cnt P E = v
          simp [applyBroadcastReaction, setReaction, hPE.1.symm, hPE.2.symm, hv]
        · simp [headReactionPayload, hPE] at hLast

/-- C7: last-writer-wins by arrival order.  After this client processes any
event sequence, the displayed likes for post `P` equal the payload of the
most recently processed likes-targeting event for `P` (when the feed has an
entry for `P`), and the displayed reaction count for `(P, E)` equals the
count of the most recently processed reaction event for `(P, E)` — by
arrival order at this client, with no global clock involved. -/
theorem C7_last_writer_wins_per_post (es : List RealtimeEvent) (st : ClientState)
    (P E : String) (v : Option Nat) (w : Nat) :
    (lastLikePayload P es = some v → (findById st.confessions P).isSome = true →
      likesOf (processEvents st es).confessions P = some v) ∧
    (lastReactionPayload P E es = some w → (processEvents st es).reactions P E = w) :=
  ⟨fun hLast hIn => processEvents_likesOf_last es st P v hLast hIn,
   fun hLast => processEvents_reaction_last es st P E w hLast⟩

/-- The ordering requested by the initial load (`page.tsx` line 17):
`order('created_at', ascending: false)` — an earlier list position has a
creation time at least as late. -/
def byNewest (a b : Confession) : Prop := b.created_at ≤ a.created_at

instance : DecidableRel byNewest := fun a b =>
  inferInstanceAs (Decidable (b.created_at ≤ a.created_at))

instance : IsTotal Confession byNewest :=
  ⟨fun a b => le_total b.created_at a.created_at⟩

instance : IsTrans Confession byNewest :=
  ⟨fun _ _ _ hab hbc => le_trans hbc hab⟩

/-- The external store's ordered read consumed by `Home` (`page.tsx` lines
14-17): all rows of the `confessions` table, ordered by `created_at`
descending.  The store is an external collaborator; its `ORDER BY` is
modelled as a sort by `byNewest`. -/
def readAllPostsOrderedByTimeDesc (rows : List Confession) : List Confession :=
  rows.insertionSort byNewest

/-- `Home` (`page.tsx` line 19): the initial feed handed to
`ConfessionBoard` is the query's data, or `[]` when the read returns no data
(`(data as Confession[]) || []`). -/
def homeInitialFeed (data : Option (List Confession)) : List Confession :=
  data.getD []

/-- C8: the initial load for a fresh session shows every stored post (the
feed is a permutation of the store's rows), ordered newest first, and a read
returning no data yields an empty feed. -/
theorem C8_initial_load_all_posts_newest_first (rows : List Confession) :
    (homeInitialFeed (some (readAllPostsOrderedByTimeDesc rows))).Perm rows ∧
    List.Sorted byNewest (homeInitialFeed (some (readAllPostsOrderedByTimeDesc rows))) ∧
    homeInitialFeed none = [] :=
  ⟨List.perm_insertionSort byNewest rows,
   List.sorted_insertionSort byNewest rows, rfl⟩

/-- The liked-set loader (`ConfessionBoard.tsx` lines 28-37): read the
localStorage key `likedConfessions` (`raw`, `none` when absent); if present,
parse it inside a try block (`parse` abstracts `JSON.parse` plus the
`Set` construction from a string array — `none` means that code threw); on
any failure the catch block is empty, so the liked-set keeps its initial
value, the empty set. -/
def loadLikedIds (raw : Option String) (parse : String → Option (List String)) :
    List String :=
  match raw with
  | none => []
  | some s =>
    match parse s with
    | none => []
    | some arr => arr.dedup

/-- C9: loading the liked-set never fails the session: when the persisted
content is malformed (the parse throws), the result is the empty liked-set,
exactly as when the key is absent. -/
theorem C9_malformed_liked_storage_recovered (s : String)
    (parse : String → Option (List String)) (h : parse s = none) :
    loadLikedIds (some s) parse = [] ∧ loadLikedIds none parse = [] := by
  constructor
  · simp [loadLikedIds, h]
  · rfl

/-- The fields of a feed entry other than `likes`, used to state that an
event changes nothing but the likes counter. -/
def frameFields (c : Confession) : String × String × Nat :=
  (c.id, c.content, c.created_at)

/-- C10: frame conditions of the UPDATE handler and the broadcast "like"
handler.  Both preserve every entry's id, content and creation time and the
feed's shape; an entry whose id differs from the event's id is unchanged; the
matching entry changes only in its likes field, which is replaced by the
payload; and when no entry carries the event's id the whole feed is
unchanged (the event is dropped, never appended). -/
theorem C10_update_and_like_touch_only_likes (row : Confession) (i : String)
    (v : Nat) (feed : List Confession) :
    ((applyUpdate row feed).map frameFields = feed.map frameFields) ∧
    ((applyBroadcastLike i v feed).map frameFields = feed.map frameFields) ∧
    (∀ (k : Nat) (c : Confession), feed[k]? = some c → c.id ≠ row.id →
      (applyUpdate row feed)[k]? = some c) ∧
    (∀ (k : Nat) (c : Confession), feed[k]? = some c → c.id = row.id →
      (applyUpdate row feed)[k]? = some { c with likes := row.likes }) ∧
    (∀ (k : Nat) (c : Confession), feed[k]? = some c → c.id ≠ i →
      (applyBroadcastLike i v feed)[k]? = some c) ∧
    (∀ (k : Nat) (c : Confession), feed[k]? = some c → c.id = i →
      (applyBroadcastLike i v feed)[k]? = some { c with likes := some v }) ∧
    ((∀ c ∈ feed, c.id ≠ row.id) → applyUpdate row feed = feed) ∧
    ((∀ c ∈ feed, c.id ≠ i) → applyBroadcastLike i v feed = feed) := by
  refine ⟨?_, ?_, ?_, ?_, ?_, ?_, ?_, ?_⟩
  · rw [applyUpdate, List.map_map]
    refine List.map_congr_left fun c _ => ?_
    by_cases h : c.id = row.id <;> simp [frameFields, h]
  · rw [applyBroadcastLike, List.map_map]
    refine List.map_congr_left fun c _ => ?_
    by_cases h : c.id = i <;> simp [frameFields, h]
  · intro k c hk hne
    rw [applyUpdate, List.getElem?_map, hk]
    simp [hne]
  · intro k c hk hEq
    rw [applyUpdate, List.getElem?_map, hk]
    simp [hEq]
  · intro k c hk hne
    rw [applyBroadcastLike, List.getElem?_map, hk]
    simp [hne]
  · intro k c hk hEq
    rw [applyBroadcastLike, List.getElem?_map, hk]
    simp [hEq]
  · intro hAll
    rw [applyUpdate]
    have hmap : feed.map
        (fun c => if c.id = row.id then { c with likes := row.likes } else c) =
        feed.map id :=
      List.map_congr_left fun c hc => by simp [hAll c hc]
    rw [hmap, List.map_id]
  · intro hAll
    rw [applyBroadcastLike]
    have hmap : feed.map
        (fun c => if c.id = i then { c with likes := some v } else c) =
        feed.map id :=
      List.map_congr_left fun c hc => by simp [hAll c hc]
    rw [hmap, List.map_id]

/-- A fresh-session reaction state: every count displays zero. -/
def zeroReactions : Reactions := fun _ _ => 0

/-- A concrete feed entry with id "a" and two likes. -/
def pw1 : Confession := { id := "a", content := "hello", created_at := 1, likes := some 2 }

/-- A concrete client state whose feed shows `pw1` and whose liked-set is empty. -/
def stw1 : ClientState :=
  { confessions := [pw1], reactions := zeroReactions, likedIds := [], storage := [] }

/-- A concrete client state that has already liked post "a". -/
def stw2 : ClientState :=
  { confessions := [pw1], reactions := zeroReactions, likedIds := ["a"], storage := ["a"] }

/-- A concrete store holding one row, id "a", with two likes. -/
def storew1 : String → Option (Option Nat) :=
  fun i => if i = "a" then some (some 2) else none

/-- C2 witness: on the concrete store with two likes for post "a", the like
operation reads the store and writes back three, whatever feed the client
caches. -/
theorem C2_like_writes_fresh_store_count_plus_one_witness :
    (handleLike storew1 true stw1 "a").storeRead = true ∧
    (handleLike storew1 true stw1 "a").storeWrite = some 3 ∧
    ∀ feed2 : List Confession,
      (handleLike storew1 true { stw1 with confessions := feed2 } "a").storeWrite =
        some 3 := by
  simpa using C2_like_writes_fresh_store_count_plus_one storew1 true stw1 "a" (some 2)
    (by decide) rfl

/-- C3 witness: a failing like write for post "a" leaves the concrete client
state untouched, sends no broadcast, and keeps the gate open. -/
theorem C3_like_write_failure_is_atomic_witness :
    (handleLike storew1 false stw1 "a").state = stw1 ∧
    (handleLike storew1 false stw1 "a").likeBroadcastSent = none ∧
    "a" ∉ (handleLike storew1 false stw1 "a").state.likedIds :=
  C3_like_write_failure_is_atomic storew1 stw1 "a" (some 2) (by decide) rfl

/-- C6 witness: with post "a" already liked the gesture is the no-op, and
after a first successful like on "a" a second gesture is the no-op. -/
theorem C6_like_gesture_gated_witness :
    handleLike storew1 true stw2 "a" = likeNoop stw2 ∧
    handleLike storew1 true (handleLike storew1 true stw1 "a").state "a" =
      likeNoop (handleLike storew1 true stw1 "a").state :=
  ⟨(C6_like_gesture_gated storew1 storew1 true true stw2 "a" (some 2)).1 (by decide),
   (C6_like_gesture_gated storew1 storew1 true true stw1 "a" (some 2)).2 (by decide) rfl⟩

/-- A concrete event sequence: a broadcast "like" for post "a" with count 5,
then a broadcast "reaction" for (post "a", emoji "x") with count 2. -/
def evw : List RealtimeEvent :=
  [RealtimeEvent.likeBroadcast "a" 5, RealtimeEvent.reactionBroadcast "a" "x" 2]

/-- C7 witness: after processing the concrete sequence, post "a" displays
five likes (the payload of its last likes event) and (post "a", emoji "x")
displays count two (the payload of its last reaction event). -/
theorem C7_last_writer_wins_per_post_witness :
    likesOf (processEvents stw1 evw).confessions "a" = some (some 5) ∧
    (processEvents stw1 evw).reactions "a" "x" = 2 :=
  ⟨(C7_last_writer_wins_per_post evw stw1 "a" "x" (some 5) 2).1 rfl rfl,
   (C7_last_writer_wins_per_post evw stw1 "a" "x" (some 5) 2).2 rfl⟩

/-- A parse that rejects every input, as `JSON.parse` does on malformed text. -/
def failParse : String → Option (List String) := fun _ => none

/-- C9 witness: concrete malformed localStorage content loads as the empty
liked-set, as does an absent key. -/
theorem C9_malformed_liked_storage_recovered_witness :
    loadLikedIds (some "not json") failParse = [] ∧
    loadLikedIds none failParse = [] :=
  C9_malformed_liked_storage_recovered "not json" failParse rfl

/-- A concrete feed entry with id "b", no likes yet. -/
def pbW : Confession := { id := "b", content := "y", created_at := 0, likes := none }

/-- A concrete UPDATE row for post "a" carrying seven likes. -/
def rowW : Confession := { id := "a", content := "hello", created_at := 1, likes := some 7 }

/-- A concrete two-entry feed. -/
def feedW : List Confession := [pw1, pbW]

/-- C10 witness: on the concrete feed, the UPDATE for post "a" keeps every
id, content and creation time, rewrites only entry "a"'s likes to the
payload, leaves entry "b" untouched, and both handlers leave a feed without
the target id entirely unchanged. -/
theorem C10_update_and_like_touch_only_likes_witness :
    ((applyUpdate rowW feedW).map frameFields = feedW.map frameFields) ∧
    (applyUpdate rowW feedW)[1]? = some pbW ∧
    (applyUpdate rowW feedW)[0]? = some { pw1 with likes := rowW.likes } ∧
    (applyBroadcastLike "a" 9 feedW)[1]? = some pbW ∧
    (applyBroadcastLike "a" 9 feedW)[0]? = some { pw1 with likes := some 9 } ∧
    applyUpdate rowW [pbW] = [pbW] ∧
    applyBroadcastLike "a" 9 [pbW] = [pbW] := by
  have h := C10_update_and_like_touch_only_likes rowW "a" 9 feedW
  have h2 := C10_update_and_like_touch_only_likes rowW "a" 9 [pbW]
  exact ⟨h.1,
    h.2.2.1 1 pbW rfl (by decide),
    h.2.2.2.1 0 pw1 rfl rfl,
    h.2.2.2.2.1 1 pbW rfl (by decide),
    h.2.2.2.2.2.1 0 pw1 rfl rfl,
    h2.2.2.2.2.2.2.1 (by decide),
    h2.2.2.2.2.2.2.2 (by decide)⟩
